import Mathlib

/-!
Verification of the activation-and-ingestion core of the statisfy
application (src/src-tauri/src/lib.rs): single-instance arbitration and
deep-link ingestion.  The bootstrap in `run` is embedded as a startup
trace; the `on_open_url` closure as a pure emission function plus an
effectful variant that tracks emit success; the single-instance lock
(which lives in a plugin, outside this repository's sources) is modelled
from the specification as an atomic-acquisition state machine.
-/

namespace Statisfy

/-- The scheme the application registers: `register("statisfy")`. -/
def registeredScheme : String := "statisfy"

/-- The fixed outbound event name used by every `emit` in the source:
`app_handle.emit("deep-link", url)`. -/
def deepLinkEventName : String := "deep-link"

/-- A parsed URL: a scheme and everything after the `://` separator. -/
structure Url where
  scheme : String
  rest : String
deriving DecidableEq, Repr

/-- Characters allowed in a URL scheme. -/
def isSchemeChar (c : Char) : Bool :=
  c.isAlpha || c.isDigit || c == '+' || c == '-' || c == '.'

/-- Split a character sequence on the (non-overlapping, leftmost-first)
occurrences of the separator `"://"`, the way `String.splitOn "://"`
does. -/
def splitSep : List Char → List (List Char)
  | [] => [[]]
  | ':' :: '/' :: '/' :: rest => [] :: splitSep rest
  | c :: rest =>
      match splitSep rest with
      | [] => [[c]]
      | p :: ps => (c :: p) :: ps

/-- Modelled from the spec: the plugin-side test "a well-formed URL with the
registered scheme" (the argv scanning of the single-instance deep-link
feature is not in src/).  A string is a well-formed URL when it splits as
`scheme "://" rest` with a nonempty scheme of scheme characters. -/
def parseUrl (s : String) : Option Url :=
  match splitSep s.data with
  | [sch, rest] =>
      if sch.length > 0 && sch.all isSchemeChar then
        some ⟨String.mk sch, String.mk rest⟩
      else
        none
  | _ => none

/-- An argument is treated as a deep link iff it parses as a URL whose
scheme is the registered one. -/
def isDeepLinkArg (scheme : String) (s : String) : Bool :=
  match parseUrl s with
  | some u => u.scheme == scheme
  | none => false

/-- One published event: the event name and the URL payload handed to
`app_handle.emit`. -/
structure Emission where
  event : String
  payload : String
deriving DecidableEq, Repr

/-- The `on_open_url` closure on the success path: for each URL of the
activation event, in order, emit it under the fixed event name. -/
def onOpenUrl (urls : List String) : List Emission :=
  urls.map (fun u => ⟨deepLinkEventName, u⟩)

/-- Whether the process survives a run of the closure: `emit(..).unwrap()`
panics as soon as one emit returns an error. -/
inductive Outcome where
  | ok
  | panicked
deriving DecidableEq, Repr

/-- The `on_open_url` closure with the result of each `emit` made explicit
(`emitOk u = true` means `emit("deep-link", u)` returned `Ok`): URLs are
emitted in order until the first failing emit, whose `unwrap()` panics. -/
def runOnOpenUrl (emitOk : String → Bool) : List String → List Emission × Outcome
  | [] => ([], Outcome.ok)
  | u :: rest =>
      if emitOk u then
        let r := runOnOpenUrl emitOk rest
        (⟨deepLinkEventName, u⟩ :: r.1, r.2)
      else
        ([], Outcome.panicked)

/-- Modelled from the spec: the argv scanning performed by the
single-instance plugin's deep-link feature when a Secondary launch is
forwarded (not in src/) — the arguments that are well-formed URLs of the
registered scheme, in argument order. -/
def forwardedDeepLinks (scheme : String) (argv : List String) : List String :=
  argv.filter (fun a => isDeepLinkArg scheme a)

/-- The Primary-side handling of a forwarded Secondary launch: its
scheme-matching arguments go through the same publishing path as
cold-activation URLs (`onOpenUrl`). -/
def onSecondaryLaunch (argv : List String) : List Emission :=
  onOpenUrl (forwardedDeepLinks registeredScheme argv)

/-- Modelled from the spec: publishing is fire-and-forget; `emit` succeeds
regardless of how many listeners are attached, and the payload is delivered
once to each attached listener (zero listeners: delivered to no one). -/
def emitSucceeds ( _listenerCount : Nat) ( _e : Emission) : Bool := true

/-- Modelled from the spec: the deliveries an emit produces, one per
attached listener. -/
def emitDeliveries (listenerCount : Nat) (e : Emission) : List Emission :=
  List.replicate listenerCount e

/-- The result of `register("statisfy")` in the setup closure. -/
inductive RegResult where
  | ok
  | err (msg : String)
deriving DecidableEq, Repr

/-- The message printed by the `match` on the register result. -/
def registerReport : RegResult → String
  | RegResult.ok => "Registered statisfy:// protocol handler"
  | RegResult.err e => "Failed to register protocol handler: " ++ e

/-- The value the setup closure returns: `Ok(())`, whatever the register
outcome was. -/
def setupReturn ( _reg : RegResult) : Except String Unit := Except.ok ()

/-- Build configuration: whether the `#[cfg(desktop)]` blocks are compiled
in. -/
structure BuildConfig where
  desktop : Bool
deriving DecidableEq, Repr

/-- One observable step of the bootstrap in `run`. -/
inductive Step where
  | installSingleInstance
  | installDeepLinkPlugin
  | installOpenerPlugin
  | installOnOpenUrlListener
  | registerScheme (scheme : String)
  | report (msg : String)
  | runLoopStart
deriving DecidableEq, Repr

/-- The plugin installations performed on the builder before `.setup`:
the single-instance plugin under `#[cfg(desktop)]`, then the deep-link and
opener plugins. -/
def pluginPhase (cfg : BuildConfig) : List Step :=
  (if cfg.desktop then [Step.installSingleInstance] else []) ++
    [Step.installDeepLinkPlugin, Step.installOpenerPlugin]

/-- The setup closure: install the `on_open_url` listener, then (under
`#[cfg(desktop)]`) call `register("statisfy")` and print the outcome. -/
def setupPhase (cfg : BuildConfig) (reg : RegResult) : List Step :=
  Step.installOnOpenUrlListener ::
    (if cfg.desktop then
      [Step.registerScheme registeredScheme, Step.report (registerReport reg)]
    else [])

/-- The whole startup trace of `run`: plugins, then setup, then the run
loop begins. -/
def runSteps (cfg : BuildConfig) (reg : RegResult) : List Step :=
  pluginPhase cfg ++ setupPhase cfg reg ++ [Step.runLoopStart]

/-- The role the single-instance guard assigns to a process. -/
inductive InstanceRole where
  | primary
  | secondary
deriving DecidableEq, Repr

/-- Modelled from the spec: the state of the cross-process single-instance
lock — who holds it, and the roles decided so far (most recent first). -/
structure GuardState where
  holder : Option Nat
  decided : List (Nat × InstanceRole)
deriving DecidableEq, Repr

/-- Modelled from the spec: atomic lock acquisition.  A process acquiring a
free lock becomes Primary and holds the lock; a process finding the lock
held becomes Secondary (no retry path). -/
inductive GuardStep : GuardState → GuardState → Prop where
  | acquireFree (pid : Nat) (d : List (Nat × InstanceRole)) :
      GuardStep ⟨none, d⟩ ⟨some pid, (pid, InstanceRole.primary) :: d⟩
  | acquireHeld (pid q : Nat) (d : List (Nat × InstanceRole)) :
      GuardStep ⟨some q, d⟩ ⟨some q, (pid, InstanceRole.secondary) :: d⟩

/-- States reachable from the initial state (lock free, no launches) by any
interleaving of acquisitions. -/
inductive Reach : GuardState → Prop where
  | init : Reach ⟨none, []⟩
  | step {s s' : GuardState} : Reach s → GuardStep s s' → Reach s'

/-- How many decided processes hold the Primary role. -/
def countPrimary (d : List (Nat × InstanceRole)) : Nat :=
  (d.filter (fun x => x.2 == InstanceRole.primary)).length

/-- The fate of a newly launched process. -/
inductive ProcessFate where
  | continues
  | forwardsAndExits
deriving DecidableEq, Repr

/-- Modelled from the spec: a launch is intercepted (arguments forwarded to
the Primary, process exits) only when the single-instance plugin is
installed — i.e. on desktop builds — and a Primary already runs. -/
def launchFate (cfg : BuildConfig) (primaryExists : Bool) : ProcessFate :=
  if cfg.desktop && primaryExists then ProcessFate.forwardsAndExits
  else ProcessFate.continues

end Statisfy
namespace Statisfy

lemma runOnOpenUrl_all_ok (emitOk : String → Bool) :
    ∀ urls : List String, (∀ u ∈ urls, emitOk u = true) →
      runOnOpenUrl emitOk urls = (onOpenUrl urls, Outcome.ok)
  | [], _ => rfl
  | u :: rest, h => by
      have hu : emitOk u = true := h u (List.mem_cons_self u rest)
      have ih := runOnOpenUrl_all_ok emitOk rest (fun v hv => h v (List.mem_cons_of_mem u hv))
      simp [runOnOpenUrl, hu, ih, onOpenUrl]

/-- C1: on a forwarded Secondary launch, exactly the arguments that are
well-formed URLs of the registered scheme are published, in argument order,
under the fixed event name and through the same publishing path; the list
["--flag", "statisfy://open/42", "notaurl"] yields one event with payload
statisfy://open/42. -/
theorem C1_secondary_launch_publishes_scheme_args (argv : List String) :
    (onSecondaryLaunch argv).map Emission.payload
        = argv.filter (fun a => isDeepLinkArg registeredScheme a)
      ∧ (∀ e ∈ onSecondaryLaunch argv, e.event = deepLinkEventName)
      ∧ onSecondaryLaunch ["--flag", "statisfy://open/42", "notaurl"]
        = [⟨deepLinkEventName, "statisfy://open/42"⟩] := by
  refine ⟨?_, ?_, by decide⟩
  · have hpay : (Emission.payload ∘ fun u => (⟨deepLinkEventName, u⟩ : Emission)) = id := rfl
    simp [onSecondaryLaunch, onOpenUrl, forwardedDeepLinks, List.map_map, hpay]
  · intro e he
    simp [onSecondaryLaunch, onOpenUrl] at he
    obtain ⟨u, hu, rfl⟩ := he
    rfl

theorem C1_witness :
    (onSecondaryLaunch ["--flag", "statisfy://open/42", "notaurl"]).map Emission.payload
        = (["--flag", "statisfy://open/42", "notaurl"] : List String).filter
            (fun a => isDeepLinkArg registeredScheme a)
      ∧ (∀ e ∈ onSecondaryLaunch ["--flag", "statisfy://open/42", "notaurl"],
          e.event = deepLinkEventName)
      ∧ onSecondaryLaunch ["--flag", "statisfy://open/42", "notaurl"]
        = [⟨deepLinkEventName, "statisfy://open/42"⟩] :=
  C1_secondary_launch_publishes_scheme_args ["--flag", "statisfy://open/42", "notaurl"]

/-- C2 counterexample: an event publication failure does terminate the
Primary — `emit("deep-link", url).unwrap()` panics when the emit fails —
so "no condition arising in this core terminates the Primary run loop" is
false at this input. -/
theorem C2_counterexample :
    (runOnOpenUrl (fun _ => false) ["statisfy://open/42"]).2 = Outcome.panicked
      ∧ Outcome.panicked ≠ Outcome.ok :=
  ⟨rfl, by decide⟩

/-- C2 (amended): registration failure never terminates the Primary — the
startup trace still reaches the run loop — and the publishing closure
finishes normally whenever every publication succeeds; only a failed
publication panics the process (via unwrap). -/
theorem C2_amended_no_termination :
    (∀ (cfg : BuildConfig) (e : String),
        Step.runLoopStart ∈ runSteps cfg (RegResult.err e))
      ∧ (∀ (emitOk : String → Bool) (urls : List String),
          (∀ u ∈ urls, emitOk u = true) →
            (runOnOpenUrl emitOk urls).2 = Outcome.ok) := by
  constructor
  · intro cfg e
    simp [runSteps]
  · intro emitOk urls h
    rw [runOnOpenUrl_all_ok emitOk urls h]

theorem C2_amended_witness :
    Step.runLoopStart ∈ runSteps ⟨true⟩ (RegResult.err "permission denied")
      ∧ (runOnOpenUrl (fun _ => true) ["statisfy://open/42"]).2 = Outcome.ok :=
  ⟨C2_amended_no_termination.1 ⟨true⟩ "permission denied",
   C2_amended_no_termination.2 (fun _ => true) ["statisfy://open/42"] (fun _ _ => rfl)⟩

/-- C3: an activation event carrying URLs [u1, ..., un] yields exactly n
published events, the i-th being u_i under the fixed event name, provided
each publication succeeds. -/
theorem C3_cold_activation_order (emitOk : String → Bool) (urls : List String)
    (h : ∀ u ∈ urls, emitOk u = true) :
    (runOnOpenUrl emitOk urls).1.length = urls.length
      ∧ ∀ i : Nat, (runOnOpenUrl emitOk urls).1[i]?
          = (urls[i]?).map (fun u => Emission.mk deepLinkEventName u) := by
  rw [runOnOpenUrl_all_ok emitOk urls h]
  constructor
  · simp [onOpenUrl]
  · intro i
    simp [onOpenUrl]

theorem C3_witness :
    (runOnOpenUrl (fun _ => true) ["u1", "u2", "u3"]).1.length
        = (["u1", "u2", "u3"] : List String).length
      ∧ ∀ i : Nat, (runOnOpenUrl (fun _ => true) ["u1", "u2", "u3"]).1[i]?
          = ((["u1", "u2", "u3"] : List String)[i]?).map
              (fun u => Emission.mk deepLinkEventName u) :=
  C3_cold_activation_order (fun _ => true) ["u1", "u2", "u3"] (fun _ _ => rfl)

/-- C4: publishing with zero listeners raises no error and nothing panics:
every emit succeeds, the payload is delivered to no one, and the publishing
closure finishes normally. -/
theorem C4_zero_listeners_silent (urls : List String) :
    (∀ e : Emission, emitSucceeds 0 e = true ∧ emitDeliveries 0 e = [])
      ∧ (runOnOpenUrl (fun u => emitSucceeds 0 ⟨deepLinkEventName, u⟩) urls).2
          = Outcome.ok := by
  refine ⟨fun e => ⟨rfl, rfl⟩, ?_⟩
  rw [runOnOpenUrl_all_ok (fun u => emitSucceeds 0 ⟨deepLinkEventName, u⟩) urls
    (fun _ _ => rfl)]

theorem C4_witness :
    emitSucceeds 0 ⟨deepLinkEventName, "statisfy://open/42"⟩ = true
      ∧ emitDeliveries 0 ⟨deepLinkEventName, "statisfy://open/42"⟩ = []
      ∧ (runOnOpenUrl (fun u => emitSucceeds 0 ⟨deepLinkEventName, u⟩)
          ["statisfy://open/42"]).2 = Outcome.ok :=
  ⟨((C4_zero_listeners_silent ["statisfy://open/42"]).1
      ⟨deepLinkEventName, "statisfy://open/42"⟩).1,
   ((C4_zero_listeners_silent ["statisfy://open/42"]).1
      ⟨deepLinkEventName, "statisfy://open/42"⟩).2,
   (C4_zero_listeners_silent ["statisfy://open/42"]).2⟩

/-- C5: whatever register("statisfy") returns, the outcome is reported, the
setup closure still returns Ok(()), and startup reaches the run loop. -/
theorem C5_registration_failure_recoverable (cfg : BuildConfig) (reg : RegResult)
    (hdesk : cfg.desktop = true) :
    Step.report (registerReport reg) ∈ runSteps cfg reg
      ∧ setupReturn reg = Except.ok ()
      ∧ Step.runLoopStart ∈ runSteps cfg reg := by
  obtain ⟨d⟩ := cfg
  subst hdesk
  refine ⟨?_, rfl, ?_⟩ <;> simp [runSteps, pluginPhase, setupPhase]

theorem C5_witness :
    Step.report (registerReport (RegResult.err "conflicting registration"))
        ∈ runSteps ⟨true⟩ (RegResult.err "conflicting registration")
      ∧ setupReturn (RegResult.err "conflicting registration") = Except.ok ()
      ∧ Step.runLoopStart ∈ runSteps ⟨true⟩ (RegResult.err "conflicting registration") :=
  C5_registration_failure_recoverable ⟨true⟩ (RegResult.err "conflicting registration") rfl

/-- C6 counterexample: a build without the desktop configuration never
calls register — the registration step is absent from its startup trace —
so "every build/platform configuration calls register" is false. -/
theorem C6_counterexample :
    Step.registerScheme registeredScheme ∉ runSteps ⟨false⟩ RegResult.ok := by
  decide

/-- C6 (amended): every desktop-build start calls register for the scheme
(no desktop start path skips it), while non-desktop builds skip runtime
registration entirely. -/
theorem C6_amended_register_on_desktop (cfg : BuildConfig) (reg : RegResult) :
    (cfg.desktop = true → Step.registerScheme registeredScheme ∈ runSteps cfg reg)
      ∧ (cfg.desktop = false →
          Step.registerScheme registeredScheme ∉ runSteps cfg reg) := by
  obtain ⟨d⟩ := cfg
  constructor
  · intro h
    simp only at h
    subst h
    simp [runSteps, pluginPhase, setupPhase]
  · intro h
    simp only at h
    subst h
    simp [runSteps, pluginPhase, setupPhase]

theorem C6_witness :
    Step.registerScheme registeredScheme ∈ runSteps ⟨true⟩ RegResult.ok :=
  (C6_amended_register_on_desktop ⟨true⟩ RegResult.ok).1 rfl

/-- C7: every emission, from the cold-activation path or the forwarded
secondary-launch path, carries the fixed event name and a payload that is a
well-formed URL of the registered scheme, given that the platform delivers
only such URLs in activation events. -/
theorem C7_payload_contract (urls argv : List String)
    (h : ∀ u ∈ urls, isDeepLinkArg registeredScheme u = true)
    (e : Emission) (he : e ∈ onOpenUrl urls ++ onSecondaryLaunch argv) :
    e.event = deepLinkEventName
      ∧ isDeepLinkArg registeredScheme e.payload = true := by
  rcases List.mem_append.mp he with hc | hs
  · simp [onOpenUrl] at hc
    obtain ⟨u, hu, rfl⟩ := hc
    exact ⟨rfl, h u hu⟩
  · simp [onSecondaryLaunch, onOpenUrl, forwardedDeepLinks] at hs
    obtain ⟨u, ⟨hmem, hdl⟩, rfl⟩ := hs
    exact ⟨rfl, hdl⟩

theorem C7_witness :
    (Emission.mk deepLinkEventName "statisfy://a").event = deepLinkEventName
      ∧ isDeepLinkArg registeredScheme
          (Emission.mk deepLinkEventName "statisfy://a").payload = true :=
  C7_payload_contract ["statisfy://a"] ["--flag", "statisfy://b"] (by decide)
    ⟨deepLinkEventName, "statisfy://a"⟩ (by decide)

/-- C8: in every startup trace the run loop start is the final step,
strictly after the installation of the activation listener and (on
desktop) after scheme registration, so no activation can be accepted
before a listener exists. -/
theorem C8_setup_precedes_run_loop (cfg : BuildConfig) (reg : RegResult) :
    ∃ pre, runSteps cfg reg = pre ++ [Step.runLoopStart]
      ∧ Step.runLoopStart ∉ pre
      ∧ Step.installOnOpenUrlListener ∈ pre
      ∧ (cfg.desktop = true → Step.registerScheme registeredScheme ∈ pre) := by
  refine ⟨pluginPhase cfg ++ setupPhase cfg reg, by simp [runSteps], ?_, ?_, ?_⟩
  · obtain ⟨d⟩ := cfg
    cases d <;> simp [pluginPhase, setupPhase]
  · simp [pluginPhase, setupPhase]
  · intro h
    obtain ⟨d⟩ := cfg
    simp only at h
    subst h
    simp [pluginPhase, setupPhase]

theorem C8_witness :
    ∃ pre, runSteps ⟨true⟩ RegResult.ok = pre ++ [Step.runLoopStart]
      ∧ Step.runLoopStart ∉ pre
      ∧ Step.installOnOpenUrlListener ∈ pre
      ∧ ((⟨true⟩ : BuildConfig).desktop = true →
          Step.registerScheme registeredScheme ∈ pre) :=
  C8_setup_precedes_run_loop ⟨true⟩ RegResult.ok

lemma reach_invariant {s : GuardState} (h : Reach s) :
    (s.holder = none ∧ s.decided = [])
      ∨ (∃ p, s.holder = some p ∧ countPrimary s.decided = 1) := by
  induction h with
  | init => exact Or.inl ⟨rfl, rfl⟩
  | step hr hstep ih =>
      cases hstep with
      | acquireFree pid d =>
          rcases ih with ⟨_, hd⟩ | ⟨p, hp, _⟩
          · simp only at hd
            subst hd
            exact Or.inr ⟨pid, rfl, rfl⟩
          · simp at hp
      | acquireHeld pid q d =>
          rcases ih with ⟨hh, _⟩ | ⟨p, _, hc⟩
          · simp at hh
          · refine Or.inr ⟨q, rfl, ?_⟩
            simpa [countPrimary] using hc

/-- C9: across every interleaving of concurrent launches, at most one
process is ever assigned the Primary role, and as soon as any launch has
been decided exactly one Primary exists; losers are all Secondary. -/
theorem C9_single_primary (s : GuardState) (h : Reach s) :
    countPrimary s.decided ≤ 1
      ∧ (s.decided ≠ [] → countPrimary s.decided = 1) := by
  rcases reach_invariant h with ⟨_, hd⟩ | ⟨p, _, hc⟩
  · rw [hd]
    exact ⟨by simp [countPrimary], fun hne => absurd rfl hne⟩
  · exact ⟨le_of_eq hc, fun _ => hc⟩

theorem C9_witness :
    countPrimary (GuardState.decided
        ⟨some 0, [(1, InstanceRole.secondary), (0, InstanceRole.primary)]⟩) ≤ 1
      ∧ ((GuardState.decided
            ⟨some 0, [(1, InstanceRole.secondary), (0, InstanceRole.primary)]⟩) ≠ [] →
          countPrimary (GuardState.decided
            ⟨some 0, [(1, InstanceRole.secondary), (0, InstanceRole.primary)]⟩) = 1) :=
  C9_single_primary ⟨some 0, [(1, InstanceRole.secondary), (0, InstanceRole.primary)]⟩
    (Reach.step (Reach.step Reach.init (GuardStep.acquireFree 0 []))
      (GuardStep.acquireHeld 1 0 [(0, InstanceRole.primary)]))

/-- C10: a build without the desktop configuration installs no
single-instance guard, so a second launch is not intercepted: whether or
not another instance runs, the new process continues (no forwarding, no
self-termination). -/
theorem C10_no_guard_without_desktop (cfg : BuildConfig) (reg : RegResult)
    (h : cfg.desktop = false) :
    Step.installSingleInstance ∉ runSteps cfg reg
      ∧ ∀ primaryExists : Bool,
          launchFate cfg primaryExists = ProcessFate.continues := by
  obtain ⟨d⟩ := cfg
  simp only at h
  subst h
  exact ⟨by simp [runSteps, pluginPhase, setupPhase],
    fun primaryExists => by simp [launchFate]⟩

theorem C10_witness :
    Step.installSingleInstance ∉ runSteps ⟨false⟩ RegResult.ok
      ∧ ∀ primaryExists : Bool,
          launchFate ⟨false⟩ primaryExists = ProcessFate.continues :=
  C10_no_guard_without_desktop ⟨false⟩ RegResult.ok rfl

end Statisfy
